import Mathlib

/-!
Verification development for the doc-search-app repository.

We shallowly embed the retrieval engine and query-orchestration layer:
* `src/services/api-gateway/main.py` — the `/query` endpoint (`process_query`),
  the tenacity-wrapped downstream calls (`search_documents`, `search_web`,
  `generate_llm_response`) and the `/health` endpoint (`health_check`);
* `src/services/document-service/document_processor.py` — chunking
  (`_chunk_document`), binary quantization (`_binarize_embeddings`),
  search over the store (`search_similar_chunks`) and collection
  creation (`_create_collection` as run from `__init__`).

External collaborators (HTTP services, the embedding model, Milvus) are
modelled as oracles: a function from attempt number to an `Except` outcome,
exactly the information the Python code observes from them.
-/

namespace DocSearch

/-- Python exception classes that occur in the gateway and document service:
`httpx.ConnectError`, `httpx.ReadTimeout`, `httpx.HTTPStatusError` (carrying
the response status), `tenacity.RetryError`, Python's builtin `ValueError`,
and a catch-all for any other exception class. -/
inductive PyExc where
  | connectError
  | readTimeout
  | httpStatusError (status : Nat)
  | retryError
  | valueError
  | otherError
deriving DecidableEq, Repr

/-- Source constant `RETRYABLE_EXCEPTIONS = (ConnectError, ReadTimeout)` (main.py line 35):
the predicate the author intended to retry on. -/
def isRetryableExc : PyExc → Bool
  | .connectError => true
  | .readTimeout => true
  | _ => false

/-- The retry predicate as actually written in main.py
(`retry=lambda e: isinstance(e, RETRYABLE_EXCEPTIONS)`): tenacity invokes the
`retry` callable on the `RetryCallState` object, not on the raised exception,
and a `RetryCallState` is never an instance of an exception class, so the
lambda returns `False` on every call and no attempt is ever retried. -/
def retryAsWritten : PyExc → Bool := fun _ => false

/-- One run of a tenacity-wrapped call (`BaseRetrying.iter` semantics).
`attempts n` is the outcome of the `n`-th call of the wrapped function
(0-based); `fuel` counts attempts still allowed by `stop_after_attempt`.
On an exception `e`: if the retry predicate rejects `e`, `e` is raised
immediately; if the attempt budget is exhausted, `reraise=True` re-raises
`e` itself while `reraise=False` raises `RetryError`; otherwise the next
attempt runs. -/
def tenacityRun (pred : PyExc → Bool) (reraise : Bool)
    (attempts : Nat → Except PyExc α) : Nat → Nat → Except PyExc α
  | _, 0 => .error .retryError
  | n, fuel + 1 =>
    match attempts n with
    | .ok v => .ok v
    | .error e =>
      if pred e = false then .error e
      else if fuel = 0 then (if reraise then .error e else .error .retryError)
      else tenacityRun pred reraise attempts (n + 1) fuel

/-- A call wrapped with `@retry(**RETRY_SETTINGS, retry=...)` where
`RETRY_SETTINGS` has `stop=stop_after_attempt(maxAttempts)` and
`reraise` as given (main.py lines 38–42 set `maxAttempts = 3`,
`reraise = True`). -/
def tenacityCall (maxAttempts : Nat) (pred : PyExc → Bool) (reraise : Bool)
    (attempts : Nat → Except PyExc α) : Except PyExc α :=
  tenacityRun pred reraise attempts 0 maxAttempts

/-- A hit returned by the document service (`/search` response element):
a dict with keys `"text"` and `"score"`. -/
structure DocHit where
  text : String
  score : ℚ
deriving DecidableEq, Repr

/-- A hit returned by the web-search service. `process_query` reads the
fields with `.get(key, default)`, so each field may be absent. -/
structure WebHit where
  title : Option String
  content : Option String
  score : Option ℚ
deriving DecidableEq, Repr

/-- Model of `models.QueryRequest`. -/
structure QueryRequest where
  query : String
  use_documents : Bool
  use_web_search : Bool
  max_tokens : Nat
  temperature : ℚ
deriving DecidableEq, Repr

/-- Model of `models.SearchResult`. -/
structure SearchResult where
  text : String
  score : ℚ
  source : String
deriving DecidableEq, Repr

/-- Model of `models.QueryResponse`. -/
structure QueryResponse where
  answer : String
  sources : List SearchResult
  method : String
  confidence : ℚ
deriving DecidableEq, Repr

/-- Outcome of one `/query` request: a normal response, an
`HTTPException(status, detail)` deliberately raised by the handler, or an
exception escaping the handler (FastAPI then produces a generic 500). -/
inductive QueryOutcome where
  | response (r : QueryResponse)
  | httpError (status : Nat) (detail : String)
  | unhandled (e : PyExc)
deriving DecidableEq, Repr

/-- Python `sep.join(xs)`. -/
def pyJoin (sep : String) : List String → String
  | [] => ""
  | s :: rest => rest.foldl (fun acc t => acc ++ sep ++ t) s

/-- Python slicing `s[:n]` on a string: the first `n` characters. -/
def pyTake (s : String) (n : Nat) : String :=
  ⟨s.data.take n⟩

/-- Gateway `search_documents` (main.py lines 145–154): tenacity-wrapped POST to the
document service, 3 attempts, `reraise=True`. -/
def search_documents (pred : PyExc → Bool)
    (attempts : Nat → Except PyExc (List DocHit)) : Except PyExc (List DocHit) :=
  tenacityCall 3 pred true attempts

/-- Gateway `search_web` (main.py lines 157–166). -/
def search_web (pred : PyExc → Bool)
    (attempts : Nat → Except PyExc (List WebHit)) : Except PyExc (List WebHit) :=
  tenacityCall 3 pred true attempts

/-- Gateway `generate_llm_response` (main.py lines 169–183). -/
def generate_llm_response (pred : PyExc → Bool)
    (attempts : Nat → Except PyExc String) : Except PyExc String :=
  tenacityCall 3 pred true attempts

/-- Assembled document context
`context = "\n\n".join([result["text"] for result in doc_results[:3]])`
(main.py line 88). -/
def docContext (hits : List DocHit) : String :=
  pyJoin "\n\n" ((hits.take 3).map DocHit.text)

/-- The `sources` list built from document hits (main.py lines 89–95). -/
def docSources (hits : List DocHit) : List SearchResult :=
  hits.map fun r => ⟨pyTake r.text 200 ++ "...", r.score, "document"⟩

/-- Web context block (main.py lines 106–109). -/
def webContext (hits : List WebHit) : String :=
  pyJoin "\n\n" ((hits.take 3).map fun r =>
    "Title: " ++ r.title.getD "" ++ "\nContent: " ++ r.content.getD "")

/-- The `sources` list built from web hits (main.py lines 110–116). -/
def webSources (hits : List WebHit) : List SearchResult :=
  hits.map fun r => ⟨pyTake (r.content.getD "") 200 ++ "...", r.score.getD (1/2), "web"⟩

/-- First stage of `process_query` (main.py lines 84–99): try document search
when enabled; on success with a truthy result list set
`(context, sources, method)`; `except RetryError` keeps the empty triple;
any other exception escapes. -/
def docStage (pred : PyExc → Bool) (req : QueryRequest)
    (docA : Nat → Except PyExc (List DocHit)) :
    Except PyExc (String × List SearchResult × String) :=
  if req.use_documents then
    match search_documents pred docA with
    | .ok doc_results =>
      .ok (if doc_results.isEmpty then ("", [], "")
           else (docContext doc_results, docSources doc_results, "document"))
    | .error .retryError => .ok ("", [], "")
    | .error e => .error e
  else .ok ("", [], "")

/-- Second stage of `process_query` (main.py lines 102–120): runs only when
`not context and request.use_web_search`; on success with a truthy result
list it overwrites all three accumulator fields; `except RetryError` keeps
the incoming triple; any other exception escapes. -/
def webStage (pred : PyExc → Bool) (req : QueryRequest)
    (webA : Nat → Except PyExc (List WebHit))
    (acc : String × List SearchResult × String) :
    Except PyExc (String × List SearchResult × String) :=
  if acc.1 = "" ∧ req.use_web_search = true then
    match search_web pred webA with
    | .ok web_results =>
      .ok (if web_results.isEmpty then acc
           else (webContext web_results, webSources web_results, "web_search"))
    | .error .retryError => .ok acc
    | .error e => .error e
  else .ok acc

/-- The retrieval part of `process_query`: document stage then web stage. -/
def retrievalStage (pred : PyExc → Bool) (req : QueryRequest)
    (docA : Nat → Except PyExc (List DocHit))
    (webA : Nat → Except PyExc (List WebHit)) :
    Except PyExc (String × List SearchResult × String) :=
  match docStage pred req docA with
  | .error e => .error e
  | .ok acc => webStage pred req webA acc

/-- Endpoint `process_query` (main.py lines 76–141): retrieval stages, then generation
wrapped in `try/except RetryError` (the `except` raises
`HTTPException(503, ...)`), then
`confidence = 0.8 if context else 0.3` and `method or "direct"`. -/
def process_query (pred : PyExc → Bool) (req : QueryRequest)
    (docA : Nat → Except PyExc (List DocHit))
    (webA : Nat → Except PyExc (List WebHit))
    (genA : Nat → Except PyExc String) : QueryOutcome :=
  match retrievalStage pred req docA webA with
  | .error e => .unhandled e
  | .ok (ctx, srcs, m) =>
    match generate_llm_response pred genA with
    | .ok answer =>
      .response ⟨answer, srcs, if m = "" then "direct" else m,
        if ctx = "" then (3 / 10 : ℚ) else (4 / 5 : ℚ)⟩
    | .error .retryError =>
      .httpError 503
        "The AI model is currently unavailable after multiple attempts. Please try again later."
    | .error e => .unhandled e

/-! ## Document service: chunking (`_chunk_document`, lines 105–115) -/

/-- The whitespace characters stripped by Python `str.strip()` for ASCII
text: space, tab, newline, carriage return, vertical tab, form feed. -/
def pyIsSpace (c : Char) : Bool :=
  c == ' ' || c == '\t' || c == '\n' || c == '\r' || c == '\x0b' || c == '\x0c'

/-- Python `s.strip()` on a string viewed as a list of characters. -/
def strip (l : List Char) : List Char :=
  ((l.dropWhile pyIsSpace).reverse.dropWhile pyIsSpace).reverse

/-- The windows `text[i:i+size]` for `i in range(0, len(text), size)`,
for a positive step `size` (for `size ≥ 1`,
`drop (size-1) rest = drop size (c :: rest)`). -/
def windows (size : Nat) : List Char → List (List Char)
  | [] => []
  | c :: rest => List.take size (c :: rest) :: windows size (List.drop (size - 1) rest)
termination_by l => l.length
decreasing_by simp [List.length_drop]; omega

/-- Model of `DocumentProcessor._chunk_document(document, chunk_size=1000)`:
`for i in range(0, len(text), chunk_size): chunk = text[i:i+chunk_size];
if len(chunk.strip()) > 50: chunks.append(chunk.strip())`.
Python `range` raises `ValueError` on a zero step; a negative step with
start 0 and a non-negative stop yields an empty range, so the loop body
never runs and the empty list is returned. -/
def chunk_document (text : List Char) (chunk_size : Int) :
    Except PyExc (List (List Char)) :=
  if chunk_size = 0 then .error .valueError
  else if chunk_size < 0 then .ok []
  else .ok ((windows chunk_size.toNat text).filterMap fun w =>
    if 50 < (strip w).length then some (strip w) else none)

/-! ## Document service: binary quantization (`_binarize_embeddings`,
lines 122–129) -/

/-- One vector component of `(embeddings > 0).astype(np.uint8)`: `1` for a strictly
positive value, `0` otherwise (so a zero component maps to `0`). -/
def signBit (x : ℚ) : Nat := if 0 < x then 1 else 0

/-- The value of one packed byte: `np.packbits` packs a group of up to 8
bits most-significant-bit-first. -/
def packByte (bits : List Nat) : Nat :=
  bits.foldl (fun acc b => 2 * acc + b) 0

/-- Model of `np.packbits` along one row: consume 8 bits per byte, padding the final
incomplete group with zero bits. -/
def packbits : List Nat → List Nat
  | [] => []
  | b :: rest =>
    packByte ((b :: rest).take 8 ++ List.replicate (8 - (b :: rest).length) 0)
      :: packbits ((b :: rest).drop 8)
termination_by bits => bits.length
decreasing_by simp [List.length_drop]; omega

/-- Binarization of one embedding row: sign threshold then bit packing. -/
def rowBinarize (v : List ℚ) : List Nat :=
  packbits (v.map signBit)

/-- Model of `DocumentProcessor._binarize_embeddings(embeddings)`: applied to a 2-D
array row by row (`np.packbits(..., axis=1)`). -/
def binarize_embeddings (embeddings : List (List ℚ)) : List (List Nat) :=
  embeddings.map rowBinarize

/-- The binarization call made during ingestion
(`process_documents`, line 90: `self._binarize_embeddings(embeddings)`). -/
def ingestBinarize (embeddings : List (List ℚ)) : List (List Nat) :=
  binarize_embeddings embeddings

/-- The binarization call made on the query vector
(`search_similar_chunks`, line 156:
`self._binarize_embeddings(query_embedding)`). -/
def queryBinarize (queryEmbedding : List (List ℚ)) : List (List Nat) :=
  binarize_embeddings queryEmbedding

/-! ## Document service: search (`search_similar_chunks`, lines 151–185) -/

/-- One Milvus hit: entity text plus the Hamming distance of the binary
vectors (a non-negative integer for the HAMMING metric). -/
structure MilvusHit where
  text : String
  distance : Nat
deriving DecidableEq, Repr

/-- One element of the list returned by `search_similar_chunks`. -/
structure ScoredChunk where
  text : String
  distance : Nat
  score : ℚ
deriving DecidableEq, Repr

/-- Model of `DocumentProcessor.search_similar_chunks`: the body embeds the query,
binarizes it and runs `collection.search`; `outcome` is the combined result
of those external calls (`.ok hits` when they succeed, `.error e` when any
of them raises — e.g. the store being unreachable). On success each hit is
scored with `1 / (1 + distance)`; the surrounding
`except Exception: return []` absorbs every exception. -/
def search_similar_chunks (outcome : Except PyExc (List MilvusHit)) :
    Except PyExc (List ScoredChunk) :=
  match outcome with
  | .ok hits => .ok (hits.map fun h => ⟨h.text, h.distance, 1 / (1 + (h.distance : ℚ))⟩)
  | .error _ => .ok []

/-! ## Document service: collection lifecycle (`_create_collection`,
lines 48–72, run from `__init__`, lines 16–35) -/

/-- One row of the `document_embeddings` collection (schema of
`_create_collection`): advisory content hash, chunk text, packed binary
vector. -/
structure IndexEntry where
  text_hash : String
  text : String
  binary_embedding : List Nat
deriving DecidableEq, Repr

/-- The state of the Milvus instance: named collections with their rows. -/
abbrev MilvusState := List (String × List IndexEntry)

/-- Model of `utility.has_collection(name)`. -/
def has_collection (st : MilvusState) (name : String) : Bool :=
  (st.lookup name).isSome

/-- Model of `utility.drop_collection(name)`: removes the collection and all of its
rows. -/
def drop_collection (st : MilvusState) (name : String) : MilvusState :=
  st.filter fun p => p.1 != name

/-- Model of `DocumentProcessor._create_collection`: drop `document_embeddings`
whenever it exists, then create it afresh (empty) with the binary-vector
schema and HAMMING index. -/
def create_collection (st : MilvusState) : MilvusState :=
  ("document_embeddings", []) ::
    (if has_collection st "document_embeddings"
     then drop_collection st "document_embeddings" else st)

/-- Model of `DocumentProcessor.__init__` as it affects the store: validate that the
embedding dimension is divisible by 8 (else raise `ValueError`), connect,
then run `_create_collection`. `app.py` line 18
(`processor = DocumentProcessor()`) executes this at module import, i.e. on
every document-service process start. -/
def documentProcessorInit (dimension : Nat) (st : MilvusState) :
    Except PyExc MilvusState :=
  if dimension % 8 ≠ 0 then .error .valueError
  else .ok (create_collection st)

/-! ## Gateway: `/health` (`health_check`, main.py lines 186–209) -/

/-- Outcome of one dependency probe: an HTTP response with its status code,
or a raised exception (connect failure, timeout, ...). -/
inductive ProbeOutcome where
  | ok (status : Nat)
  | exn (e : PyExc)
deriving DecidableEq, Repr

/-- The status string recorded for one dependency: `"healthy"` on a 200
response, `"unhealthy"` on any other response, and — via the per-service
`except Exception` — `"unreachable"` when the probe raised. -/
def probeStatus : ProbeOutcome → String
  | .ok s => if s = 200 then "healthy" else "unhealthy"
  | .exn _ => "unreachable"

/-- The three probed dependencies (main.py lines 191–195). -/
def gatewayServices : List String :=
  ["document-service", "llm-service", "web-search-service"]

/-- Endpoint `health_check`: starts from `{"gateway": "healthy"}` and probes each
dependency with `client.get(..., timeout=5.0)`; `probe` maps the timeout
passed and the service name to that probe's outcome. The endpoint itself
always returns a mapping (every exception is caught per service). -/
def health_check (probe : ℚ → String → ProbeOutcome) : List (String × String) :=
  ("gateway", "healthy") :: gatewayServices.map fun s => (s, probeStatus (probe 5 s))

/-! ## Concrete inputs used by witnesses -/

/-- A sample embedding vector of dimension 8. -/
def sampleEmbedding : List ℚ := [1, -1, 0, 2, -3, 5, 0, -7]

/-- A sample prior Milvus state holding previously ingested entries. -/
def sampleMilvusState : MilvusState :=
  [("document_embeddings", [⟨"deadbeef", "an old chunk", [148, 7]⟩]),
   ("other_collection", [])]

/-- A sample probe environment: the llm-service probe times out, the other
dependencies answer 200. -/
def sampleProbe : ℚ → String → ProbeOutcome := fun _ s =>
  if s = "llm-service" then .exn .readTimeout else .ok 200

/-! # Theorems -/

/-- When every attempt of a downstream call raises the same exception `e`,
the tenacity wrapper with `stop_after_attempt(3), reraise=True` yields
`e` itself — never `RetryError` — for every retry predicate. -/
theorem tenacityCall_const_error (pred : PyExc → Bool) (e : PyExc) :
    tenacityCall 3 pred true (fun _ => (.error e : Except PyExc α)) = .error e := by
  cases h : pred e <;>
    simp [tenacityCall, tenacityRun, h]

/-- C1: a document-search failure is NOT absorbed locally. Because
`RETRY_SETTINGS` sets `reraise=True`, an exhausted (or non-retryable)
downstream failure re-raises the original exception, never
`tenacity.RetryError`; the `except RetryError` handler in `process_query`
therefore never fires and the exception escapes the endpoint (FastAPI
answers 500). For every retry predicate and every request with
`use_documents=True`: a document service that raises `ConnectError` on
every attempt, or answers a non-transient 500 (`HTTPStatusError`), makes
the whole `/query` request fail instead of degrading to the next fallback
stage. -/
theorem C1_retrieval_failure_propagates :
    ∀ (pred : PyExc → Bool) (q : String) (uw : Bool) (mt : Nat) (tp : ℚ)
      (webA : Nat → Except PyExc (List WebHit)) (genA : Nat → Except PyExc String),
      process_query pred ⟨q, true, uw, mt, tp⟩
        (fun _ => .error .connectError) webA genA = .unhandled .connectError
      ∧ process_query pred ⟨q, true, uw, mt, tp⟩
        (fun _ => .error (.httpStatusError 500)) webA genA
        = .unhandled (.httpStatusError 500) := by
  intro pred q uw mt tp webA genA
  constructor <;>
    simp [process_query, retrievalStage, docStage, search_documents,
      tenacityCall_const_error]

/-- C2: when the generation collaborator fails with `ReadTimeout` on every
attempt, the request does NOT fail with the intended
`HTTPException(503, ...)` ("ModelUnavailable"): with `reraise=True` the
wrapper re-raises `ReadTimeout` itself, the `except RetryError` handler
(main.py lines 130–132) never fires, and the exception escapes the endpoint
(FastAPI answers a generic 500). -/
theorem C2_generation_failure_propagates :
    ∀ (pred : PyExc → Bool) (q : String) (mt : Nat) (tp : ℚ)
      (docA : Nat → Except PyExc (List DocHit))
      (webA : Nat → Except PyExc (List WebHit)),
      process_query pred ⟨q, false, false, mt, tp⟩ docA webA
        (fun _ => .error .readTimeout) = .unhandled .readTimeout
      ∧ ∀ d : String,
        process_query pred ⟨q, false, false, mt, tp⟩ docA webA
          (fun _ => .error .readTimeout) ≠ .httpError 503 d := by
  intro pred q mt tp docA webA
  have h : process_query pred ⟨q, false, false, mt, tp⟩ docA webA
      (fun _ => .error .readTimeout) = .unhandled .readTimeout := by
    simp [process_query, retrievalStage, docStage, webStage,
      generate_llm_response, tenacityCall_const_error]
  exact ⟨h, fun d => by simp [h]⟩

/-- C3 counterexample: the claim "if document search returns at least one
hit, the web-search collaborator is never invoked, regardless of the hit
contents" is false. With one document hit whose text is the empty string,
`context = "\n\n".join([""])` is the empty string, so the guard
`if not context and request.use_web_search` is taken and the web results
overwrite sources and method: the response reports `method="web_search"`
with the web-derived source, proving the web collaborator was invoked. -/
theorem C3_cex_empty_hit_invokes_web :
    process_query retryAsWritten ⟨"q", true, true, 1024, 7/10⟩
      (fun _ => .ok [⟨"", 1⟩])
      (fun _ => .ok [⟨some "T", some "C", some (1/2)⟩])
      (fun _ => .ok "ans")
      = .response ⟨"ans", [⟨"C...", 1/2, "web"⟩], "web_search", 4/5⟩ := by
  rfl

/-- C3 amended: if document search succeeds with hits whose assembled
context (`"\n\n".join` of the top-3 texts) is non-empty — in particular
whenever at least one hit is returned and none of the top-3 texts is empty,
or at least two hits are returned — the web-search collaborator is never
invoked: the retrieval result is the document context, sources and
`method="document"`, and the outcome of `/query` is independent of the
web-search oracle. (A single hit with empty text yields an empty context
and web search is then attempted.) -/
theorem C3_nonempty_context_skips_web :
    ∀ (pred : PyExc → Bool) (req : QueryRequest)
      (docA : Nat → Except PyExc (List DocHit))
      (genA : Nat → Except PyExc String)
      (w1 w2 : Nat → Except PyExc (List WebHit)) (hits : List DocHit),
      req.use_documents = true →
      search_documents pred docA = .ok hits →
      docContext hits ≠ "" →
      retrievalStage pred req docA w1
        = .ok (docContext hits, docSources hits, "document")
      ∧ process_query pred req docA w1 genA = process_query pred req docA w2 genA := by
  intro pred req docA genA w1 w2 hits hud hdoc hctx
  have hne : hits ≠ [] := by
    intro h
    exact hctx (by simp [h, docContext, pyJoin])
  have hstage : ∀ w : Nat → Except PyExc (List WebHit),
      retrievalStage pred req docA w
        = .ok (docContext hits, docSources hits, "document") := by
    intro w
    simp [retrievalStage, docStage, hud, hdoc, webStage,
      List.isEmpty_iff, hne, hctx]
  exact ⟨hstage w1, by simp [process_query, hstage w1, hstage w2]⟩

/-- C3 witness: with a hit whose text is non-empty, the retrieval result is
the document context and the `/query` outcome does not change when the
web-search oracle is replaced by a failing one. -/
theorem C3_nonempty_context_skips_web_witness :
    retrievalStage retryAsWritten ⟨"q", true, true, 1024, 7/10⟩
      (fun _ => .ok [⟨"some document text", 9/10⟩]) (fun _ => .ok [])
      = .ok (docContext [⟨"some document text", 9/10⟩],
             docSources [⟨"some document text", 9/10⟩], "document")
    ∧ process_query retryAsWritten ⟨"q", true, true, 1024, 7/10⟩
        (fun _ => .ok [⟨"some document text", 9/10⟩]) (fun _ => .ok [])
        (fun _ => .ok "ans")
      = process_query retryAsWritten ⟨"q", true, true, 1024, 7/10⟩
          (fun _ => .ok [⟨"some document text", 9/10⟩])
          (fun _ => .error .connectError) (fun _ => .ok "ans") :=
  C3_nonempty_context_skips_web retryAsWritten ⟨"q", true, true, 1024, 7/10⟩
    (fun _ => .ok [⟨"some document text", 9/10⟩]) (fun _ => .ok "ans")
    (fun _ => .ok []) (fun _ => .error .connectError)
    [⟨"some document text", 9/10⟩] rfl rfl (by decide)

/-- C4: (1) when document retrieval is disabled or returns no results and
web retrieval is disabled or returns no results, and generation succeeds,
the response is exactly `method="direct"`, `confidence=0.3`, `sources=[]`;
(2) in general every produced response carries
`confidence = 0.8` if the assembled context is non-empty and
`confidence = 0.3` otherwise — never any other value. -/
theorem C4_direct_and_confidence :
    (∀ (pred : PyExc → Bool) (req : QueryRequest)
      (docA : Nat → Except PyExc (List DocHit))
      (webA : Nat → Except PyExc (List WebHit))
      (genA : Nat → Except PyExc String) (answer : String),
      (req.use_documents = false ∨ search_documents pred docA = .ok []) →
      (req.use_web_search = false ∨ search_web pred webA = .ok []) →
      generate_llm_response pred genA = .ok answer →
      process_query pred req docA webA genA
        = .response ⟨answer, [], "direct", 3/10⟩)
    ∧ (∀ (pred : PyExc → Bool) (req : QueryRequest)
      (docA : Nat → Except PyExc (List DocHit))
      (webA : Nat → Except PyExc (List WebHit))
      (genA : Nat → Except PyExc String)
      (ctx : String) (srcs : List SearchResult) (m answer : String),
      retrievalStage pred req docA webA = .ok (ctx, srcs, m) →
      generate_llm_response pred genA = .ok answer →
      ∃ r, process_query pred req docA webA genA = .response r
        ∧ r.confidence = (if ctx = "" then (3/10 : ℚ) else 4/5)
        ∧ (r.confidence = 3/10 ∨ r.confidence = 4/5)) := by
  constructor
  · intro pred req docA webA genA answer hd hw hg
    have hdoc : docStage pred req docA = .ok ("", [], "") := by
      rcases hd with h | h <;> simp [docStage, h]
    have hweb : webStage pred req webA ("", [], "") = .ok ("", [], "") := by
      rcases hw with h | h
      · simp [webStage, h]
      · cases hb : req.use_web_search <;> simp [webStage, h, hb]
    simp [process_query, retrievalStage, hdoc, hweb, hg]
  · intro pred req docA webA genA ctx srcs m answer h hg
    refine ⟨⟨answer, srcs, if m = "" then "direct" else m,
      if ctx = "" then (3/10 : ℚ) else 4/5⟩, ?_, rfl, ?_⟩
    · simp [process_query, h, hg]
    · by_cases hc : ctx = "" <;> simp [hc]

theorem packbits_cons8 (bits : List Nat) (h : 8 ≤ bits.length) :
    packbits bits = packByte (bits.take 8) :: packbits (bits.drop 8) := by
  cases bits with
  | nil => simp at h
  | cons b rest =>
    have h0 : 8 - (b :: rest).length = 0 := by omega
    rw [packbits, h0]
    simp

theorem packbits_length : ∀ (m : Nat) (bits : List Nat), bits.length = 8 * m →
    (packbits bits).length = m := by
  intro m
  induction m with
  | zero =>
    intro bits h
    have : bits = [] := List.eq_nil_of_length_eq_zero (by omega)
    simp [this, packbits]
  | succ k ih =>
    intro bits h
    rw [packbits_cons8 bits (by omega)]
    simp only [List.length_cons]
    rw [ih (bits.drop 8) (by simp [List.length_drop]; omega)]

theorem packbits_getD : ∀ (m : Nat) (bits : List Nat) (j : Nat),
    bits.length = 8 * m → j < m →
    (packbits bits).getD j 0 = packByte ((bits.drop (8 * j)).take 8) := by
  intro m
  induction m with
  | zero => intro bits j h hj; omega
  | succ k ih =>
    intro bits j h hj
    rw [packbits_cons8 bits (by omega)]
    cases j with
    | zero => simp
    | succ i =>
      rw [List.getD_cons_succ]
      rw [ih (bits.drop 8) i (by simp [List.length_drop]; omega) (by omega)]
      rw [List.drop_drop]
      have h8 : 8 + 8 * i = 8 * (i + 1) := by ring
      rw [h8]

theorem packByte_eq_sum (l : List Nat) (hl : l.length = 8) :
    packByte l = ∑ t in Finset.range 8, l.getD t 0 * 2 ^ (7 - t) := by
  rcases l with _ | ⟨b0, l⟩; · simp at hl
  rcases l with _ | ⟨b1, l⟩; · simp at hl
  rcases l with _ | ⟨b2, l⟩; · simp at hl
  rcases l with _ | ⟨b3, l⟩; · simp at hl
  rcases l with _ | ⟨b4, l⟩; · simp at hl
  rcases l with _ | ⟨b5, l⟩; · simp at hl
  rcases l with _ | ⟨b6, l⟩; · simp at hl
  rcases l with _ | ⟨b7, l⟩; · simp at hl
  rcases l with _ | ⟨b8, l⟩
  · simp [packByte, Finset.sum_range_succ]
    ring
  · simp at hl

theorem getD_map_signBit (v : List ℚ) (i : Nat) :
    (v.map signBit).getD i 0 = signBit (v.getD i 0) := by
  induction v generalizing i with
  | nil => simp [signBit]
  | cons x xs ih =>
    cases i with
    | zero => simp
    | succ n => simpa using ih n

theorem getD_take_drop (l : List Nat) (n t : Nat) (h : t < 8) :
    ((l.drop n).take 8).getD t 0 = l.getD (n + t) 0 := by
  rw [List.getD_eq_getElem?_getD, List.getD_eq_getElem?_getD,
    List.getElem?_take, if_pos h, List.getElem?_drop]

/-- C5: for an embedding of dimension divisible by 8,
`_binarize_embeddings` produces exactly `D/8` bytes per row; byte `j`
equals `∑ 2^(7−t)` over the positions `8j+t` whose component is strictly
positive — i.e. bit `i` is 1 iff `Embedding[i] > 0`, zero components give
0, packed most-significant-bit-first; and the ingestion call site and the
query call site use the same packing routine (a pure function, hence
deterministic). -/
theorem C5_quantize_spec (v : List ℚ) (hD : v.length % 8 = 0) :
    (rowBinarize v).length = v.length / 8
    ∧ (∀ j, j < v.length / 8 →
        (rowBinarize v).getD j 0
          = ∑ t in Finset.range 8,
              (if (0 : ℚ) < v.getD (8 * j + t) 0 then 2 ^ (7 - t) else 0))
    ∧ ingestBinarize = queryBinarize := by
  have hlen : (v.map signBit).length = 8 * (v.length / 8) := by
    simp only [List.length_map]
    omega
  refine ⟨?_, ?_, rfl⟩
  · rw [rowBinarize, packbits_length (v.length / 8) _ hlen]
  · intro j hj
    rw [rowBinarize, packbits_getD (v.length / 8) _ j hlen hj,
      packByte_eq_sum _ (by rw [List.length_take, List.length_drop, hlen]; omega)]
    refine Finset.sum_congr rfl fun t ht => ?_
    rw [Finset.mem_range] at ht
    rw [getD_take_drop _ _ _ ht, getD_map_signBit]
    by_cases hx : (0 : ℚ) < v.getD (8 * j + t) 0 <;> simp [signBit, hx]

/-- C5 witness: the 8-dimensional vector `[1, -1, 0, 2, -3, 5, 0, -7]`
packs to the single byte `10010100₂ = 148`. -/
theorem C5_quantize_spec_witness :
    (sampleEmbedding.length % 8 = 0
      ∧ (rowBinarize sampleEmbedding).length = sampleEmbedding.length / 8)
    ∧ rowBinarize sampleEmbedding = [148] :=
  ⟨⟨by decide, (C5_quantize_spec sampleEmbedding (by decide)).1⟩,
   by norm_num [rowBinarize, sampleEmbedding, signBit, packbits, packByte]⟩

/-- C4 witness: the spec scenario — empty store, web search disabled —
yields `method="direct"`, `confidence=0.3`, `sources=[]`. -/
theorem C4_direct_and_confidence_witness :
    process_query retryAsWritten ⟨"capital of France", true, false, 1024, 7/10⟩
      (fun _ => .ok []) (fun _ => .ok []) (fun _ => .ok "Paris.")
      = .response ⟨"Paris.", [], "direct", 3/10⟩ :=
  C4_direct_and_confidence.1 retryAsWritten
    ⟨"capital of France", true, false, 1024, 7/10⟩
    (fun _ => .ok []) (fun _ => .ok []) (fun _ => .ok "Paris.") "Paris."
    (Or.inr rfl) (Or.inl rfl) rfl

theorem windows_cons (size : Nat) (hs : 0 < size) (text : List Char) (ht : text ≠ []) :
    windows size text = text.take size :: windows size (text.drop size) := by
  cases text with
  | nil => exact absurd rfl ht
  | cons c rest =>
    simp only [windows]
    cases size with
    | zero => omega
    | succ s => simp [List.drop_succ_cons]

theorem windows_split_1200 (text : List Char) (h : text.length = 1200) :
    windows 1000 text = [text.take 1000, text.drop 1000] := by
  have hnil : text ≠ [] := by
    intro hnil; rw [hnil] at h; simp at h
  have hd : text.drop 1000 ≠ [] := by
    intro hnil
    have hlen := congrArg List.length hnil
    rw [List.length_drop, h] at hlen
    simp at hlen
  have ht3 : (text.drop 1000).take 1000 = text.drop 1000 :=
    List.take_of_length_le (by rw [List.length_drop]; omega)
  rw [windows_cons 1000 (by omega) text hnil,
    windows_cons 1000 (by omega) (text.drop 1000) hd, ht3,
    List.drop_drop]
  have h2 : text.drop (1000 + 1000) = [] := List.drop_eq_nil_of_le (by omega)
  rw [h2]
  simp [windows]

theorem dropWhile_space_replicate (n : Nat) :
    List.dropWhile pyIsSpace (List.replicate n ' ') = [] := by
  induction n with
  | zero => simp
  | succ k ih =>
    rw [List.replicate_succ, List.dropWhile_cons]
    simp only [show pyIsSpace ' ' = true from by decide, if_true]
    exact ih

theorem strip_replicate_space (n : Nat) : strip (List.replicate n ' ') = [] := by
  rw [strip, dropWhile_space_replicate]
  simp

theorem dropWhile_replicate_not_space (c : Char) (hc : pyIsSpace c = false) (n : Nat) :
    List.dropWhile pyIsSpace (List.replicate n c) = List.replicate n c := by
  cases n with
  | zero => simp
  | succ k =>
    rw [List.replicate_succ, List.dropWhile_cons]
    simp [hc]

theorem strip_replicate_not_space (c : Char) (hc : pyIsSpace c = false) (n : Nat) :
    strip (List.replicate n c) = List.replicate n c := by
  rw [strip, dropWhile_replicate_not_space c hc, List.reverse_replicate,
    dropWhile_replicate_not_space c hc, List.reverse_replicate]

/-- C6 counterexample: a 1200-character document consisting entirely of
spaces is chunked, with `maxLen = 1000`, into ZERO chunks — not into the
two windows the claim demands: both windows strip to the empty string, and
the output chunks are the *stripped* windows filtered by trimmed length
`> 50`. -/
theorem C6_cex_whitespace_document :
    chunk_document (List.replicate 1200 ' ') 1000 = .ok []
    ∧ chunk_document (List.replicate 1200 ' ') 1000
      ≠ .ok [(List.replicate 1200 ' ').take 1000, (List.replicate 1200 ' ').drop 1000] := by
  have t1 : (List.replicate 1200 ' ' : List Char).take 1000 = List.replicate 1000 ' ' := by
    rw [List.take_replicate]; norm_num
  have t2 : (List.replicate 1200 ' ' : List Char).drop 1000 = List.replicate 200 ' ' := by
    rw [List.drop_replicate]
  have hok : chunk_document (List.replicate 1200 ' ') 1000 = .ok [] := by
    unfold chunk_document
    rw [if_neg (show ¬((1000 : Int) = 0) by omega)]
    rw [if_neg (show ¬((1000 : Int) < 0) by omega)]
    rw [show ((1000 : Int)).toNat = 1000 from rfl]
    rw [windows_split_1200 _ (by rw [List.length_replicate]), t1, t2]
    simp only [List.filterMap_cons, List.filterMap_nil, strip_replicate_space,
      List.length_nil]
    norm_num
  refine ⟨hok, ?_⟩
  rw [hok]
  intro hbad
  exact List.noConfusion (Except.ok.inj hbad)

/-- C6 amended: `chunk(text, maxLen)` walks the consecutive non-overlapping
windows of at most `maxLen` characters in original order, but the output
chunks are the *whitespace-stripped* windows, kept only when the stripped
length exceeds 50 — so (1) every produced chunk has length `> 50`, and
(2) a 1200-character document with `maxLen = 1000` yields exactly the two
chunks "first 1000 characters" and "remaining 200 characters" provided
stripping leaves both windows unchanged (e.g. no leading/trailing
whitespace at the window boundaries). -/
theorem C6_chunk_windows :
    (∀ (text : List Char) (size : Int) (cs : List (List Char)) (c : List Char),
      chunk_document text size = .ok cs → c ∈ cs → 50 < c.length)
    ∧ (∀ text : List Char, text.length = 1200 →
        strip (text.take 1000) = text.take 1000 →
        strip (text.drop 1000) = text.drop 1000 →
        chunk_document text 1000 = .ok [text.take 1000, text.drop 1000]) := by
  constructor
  · intro text size cs c hok hc
    by_cases h0 : size = 0
    · rw [chunk_document, if_pos h0] at hok
      exact absurd hok (by simp)
    by_cases hneg : size < 0
    · rw [chunk_document, if_neg h0, if_pos hneg] at hok
      obtain rfl : ([] : List (List Char)) = cs := by injection hok
      simp at hc
    · rw [chunk_document, if_neg h0, if_neg hneg] at hok
      have hok2 : (windows size.toNat text).filterMap
          (fun w => if 50 < (strip w).length then some (strip w) else none) = cs := by
        injection hok
      rw [← hok2, List.mem_filterMap] at hc
      obtain ⟨w, _, hf⟩ := hc
      by_cases h50 : 50 < (strip w).length
      · rw [if_pos h50] at hf
        exact Option.some.inj hf ▸ h50
      · rw [if_neg h50] at hf
        exact absurd hf (by simp)
  · intro text h h1 h2
    have t1 : (text.take 1000).length = 1000 := by rw [List.length_take]; omega
    have t2 : (text.drop 1000).length = 200 := by rw [List.length_drop]; omega
    rw [chunk_document, if_neg (by omega), if_neg (by omega),
      show ((1000 : Int)).toNat = 1000 from rfl,
      windows_split_1200 text h]
    simp only [List.filterMap_cons, List.filterMap_nil, h1, h2, t1, t2]
    norm_num

/-- C6 witness: a 1200-character document of letters (stripping is the
identity on both windows) yields exactly the two expected chunks. -/
theorem C6_chunk_windows_witness :
    (List.replicate 1200 'a' : List Char).length = 1200
    ∧ chunk_document (List.replicate 1200 'a') 1000
      = .ok [(List.replicate 1200 'a').take 1000, (List.replicate 1200 'a').drop 1000] := by
  have t1 : (List.replicate 1200 'a' : List Char).take 1000 = List.replicate 1000 'a' := by
    rw [List.take_replicate]; norm_num
  have t2 : (List.replicate 1200 'a' : List Char).drop 1000 = List.replicate 200 'a' := by
    rw [List.drop_replicate]
  refine ⟨by rw [List.length_replicate], C6_chunk_windows.2 _ (by rw [List.length_replicate]) ?_ ?_⟩
  · rw [t1]; exact strip_replicate_not_space 'a' (by decide) 1000
  · rw [t2]; exact strip_replicate_not_space 'a' (by decide) 200

/-- C7 counterexample: when the underlying store calls fail (e.g. Milvus
unreachable, raising a connection error), `search_similar_chunks` does NOT
fail with a StorageError: the blanket `except Exception: return []`
silently yields the empty list, indistinguishable from an empty store. -/
theorem C7_cex_unreachable_store_empty :
    search_similar_chunks (.error .connectError) = .ok [] := rfl

/-- C7 amended: searching an empty store yields an empty list and is not an
error; but search against an unreachable store ALSO silently yields an
empty list (every exception is absorbed) — `search_similar_chunks` can
never raise. -/
theorem C7_search_absorbs_errors :
    search_similar_chunks (.ok []) = .ok []
    ∧ (∀ e : PyExc, search_similar_chunks (.error e) = .ok [])
    ∧ (∀ outcome : Except PyExc (List MilvusHit),
        ∃ r, search_similar_chunks outcome = .ok r) := by
  refine ⟨rfl, fun e => rfl, fun outcome => ?_⟩
  cases outcome with
  | ok hits => exact ⟨_, rfl⟩
  | error e => exact ⟨[], rfl⟩

/-- C8 counterexample: calling the chunker with the invalid `maxLen = -1`
(which is `≤ 0`) does NOT fail: `range(0, len(text), -1)` is simply empty,
so the function silently returns the empty chunk list. -/
theorem C8_cex_negative_maxlen :
    chunk_document (List.replicate 100 'a') (-1) = .ok [] := by
  simp [chunk_document]

/-- C8 amended: `chunk` with `maxLen = 0` fails with Python's `ValueError`
(raised by `range` for a zero step); with a negative `maxLen` it silently
returns the empty list without failing; with a positive `maxLen` it always
succeeds (it is a pure function with no other failure modes). -/
theorem C8_chunk_failure_modes :
    (∀ text : List Char, chunk_document text 0 = .error .valueError)
    ∧ (∀ (text : List Char) (s : Int), s < 0 → chunk_document text s = .ok [])
    ∧ (∀ (text : List Char) (s : Int), 0 < s →
        ∃ cs, chunk_document text s = .ok cs) := by
  refine ⟨fun text => by simp [chunk_document], fun text s hs => ?_,
    fun text s hs => ?_⟩
  · simp only [chunk_document]
    rw [if_neg (by omega), if_pos hs]
  · simp only [chunk_document]
    rw [if_neg (by omega), if_neg (by omega)]
    exact ⟨_, rfl⟩

/-- C8 witness: concrete instances of all three failure-mode cases. -/
theorem C8_chunk_failure_modes_witness :
    chunk_document (List.replicate 100 'a') 0 = .error .valueError
    ∧ chunk_document (List.replicate 100 'a') (-5) = .ok []
    ∧ ∃ cs, chunk_document (List.replicate 100 'a') 17 = .ok cs :=
  ⟨C8_chunk_failure_modes.1 _,
   C8_chunk_failure_modes.2.1 _ (-5) (by decide),
   C8_chunk_failure_modes.2.2 _ 17 (by decide)⟩

/-- C9: each dependency is probed with its own 5-unit deadline and
reported purely from its own probe outcome: `"healthy"` on a 200 response,
`"unhealthy"` on any other response, `"unreachable"` when the probe raised
(timeout, connection error, ...); one dependency's status is independent
of the other probes' outcomes; and the endpoint always returns the full
4-entry mapping (it never fails). -/
theorem C9_health_isolation (probe : ℚ → String → ProbeOutcome) (s : String)
    (hs : s ∈ gatewayServices) :
    (health_check probe).lookup s = some (probeStatus (probe 5 s))
    ∧ (probe 5 s = .ok 200 → (health_check probe).lookup s = some "healthy")
    ∧ (∀ c, probe 5 s = .ok c → c ≠ 200 →
        (health_check probe).lookup s = some "unhealthy")
    ∧ (∀ e, probe 5 s = .exn e →
        (health_check probe).lookup s = some "unreachable")
    ∧ (∀ probe2 : ℚ → String → ProbeOutcome, probe2 5 s = probe 5 s →
        (health_check probe2).lookup s = (health_check probe).lookup s)
    ∧ (health_check probe).length = 4 := by
  have key : ∀ p : ℚ → String → ProbeOutcome,
      (health_check p).lookup s = some (probeStatus (p 5 s)) := by
    intro p
    fin_cases hs <;> simp [health_check, gatewayServices, List.lookup]
  refine ⟨key probe, ?_, ?_, ?_, ?_, by simp [health_check, gatewayServices]⟩
  · intro h; rw [key probe, h]; simp [probeStatus]
  · intro c h hc; rw [key probe, h]; simp [probeStatus, hc]
  · intro e h; rw [key probe, h]; simp [probeStatus]
  · intro p2 h; rw [key p2, key probe, h]

/-- C9 witness: with the llm-service probe timing out and the others
answering 200, the llm-service reports `"unreachable"` while the
document-service reports its true `"healthy"` status in the same call. -/
theorem C9_health_isolation_witness :
    (health_check sampleProbe).lookup "llm-service" = some "unreachable"
    ∧ (health_check sampleProbe).lookup "document-service" = some "healthy" :=
  ⟨(C9_health_isolation sampleProbe "llm-service"
      (by simp [gatewayServices])).2.2.2.1 .readTimeout rfl,
   (C9_health_isolation sampleProbe "document-service"
      (by simp [gatewayServices])).2.1 rfl⟩

theorem lookup_isSome_of_mem {p : String × List IndexEntry} :
    ∀ {st : MilvusState}, p ∈ st → (st.lookup p.1).isSome = true := by
  intro st
  induction st with
  | nil => intro hp; simp at hp
  | cons q rest ih =>
    obtain ⟨k, v⟩ := q
    intro hp
    rcases List.mem_cons.mp hp with h | h
    · subst h
      simp [List.lookup]
    · cases hq : (p.1 == k) with
      | true => simp [List.lookup, hq]
      | false =>
        simp only [List.lookup, hq]
        exact ih h

/-- C10: `DocumentProcessor.__init__` (run at every document-service
process start by `app.py` line 18) unconditionally drops the
`document_embeddings` collection when it exists and recreates it empty:
whatever the prior store state, after a successful construction the
collection exists with zero rows and no previously ingested entry survives
anywhere under that collection name. -/
theorem C10_init_resets_collection (st : MilvusState) (dim : Nat)
    (h : dim % 8 = 0) :
    documentProcessorInit dim st = .ok (create_collection st)
    ∧ (create_collection st).lookup "document_embeddings" = some []
    ∧ ∀ p ∈ create_collection st, p.1 = "document_embeddings" → p.2 = [] := by
  refine ⟨by simp [documentProcessorInit, h],
    by simp [create_collection, List.lookup], ?_⟩
  intro p hp hname
  rcases List.mem_cons.mp hp with hh | hh
  · rw [hh]
  · by_cases hc : has_collection st "document_embeddings"
    · rw [if_pos hc] at hh
      have := (List.mem_filter.mp hh).2
      simp [hname] at this
    · rw [if_neg hc] at hh
      exfalso
      apply hc
      have := lookup_isSome_of_mem hh
      rwa [hname] at this

/-- C10 witness: a prior state holding an ingested entry under
`document_embeddings` is reset to an empty collection. -/
theorem C10_init_resets_collection_witness :
    documentProcessorInit 1024 sampleMilvusState = .ok (create_collection sampleMilvusState)
    ∧ (create_collection sampleMilvusState).lookup "document_embeddings" = some [] :=
  ⟨(C10_init_resets_collection sampleMilvusState 1024 (by decide)).1,
   (C10_init_resets_collection sampleMilvusState 1024 (by decide)).2.1⟩

end DocSearch
